import Mathlib

/-!
Verification of the core logic of `ENG130_Trail.py` (the "Resultant Force
Calculator" quiz): problem generation, attempt reconciliation, grading and
max-score upsert, shallowly embedded in Lean.

Conventions of the embedding:

* Run-time numeric values (spreadsheet cells, UI inputs, scores) are
  modelled by `ℚ`: every Python float is a rational number, and the
  comparisons performed by the program (`==`, `<`, `>`) are exact on them.
  The ideal trigonometric values of the problem formula live in `ℝ`.
* A spreadsheet cell, as returned by `sheet.get_all_records()`, is a
  `Cell`: `Cell.num x` is any value that Python `float(...)` converts to
  the number `x` (a stored number or a numeric string); `Cell.other`
  covers `None`, the empty string and non-numeric text, exactly the
  values on which `float(...)` raises and `to_float` returns `None`.
* The string-valued columns (`Student ID`, `Status`) are modelled as the
  `String` that Python `str(...)` produces for them.
* A fault of the spreadsheet store (the gspread client raising) is
  modelled with `Except Unit`: `Except.error ()` stands for an exception
  escaping the Dash callback to the presentation layer.
* Messages and per-item feedback are fixed string templates in the
  source; they are modelled as inductive types (`Msg`, `Feedback`), one
  constructor per template, carrying the interpolated data.
-/

/-- A spreadsheet cell / UI input value as seen by `float(...)`:
`num x` parses to the float `x`, `other` fails to parse (Python `None`,
the empty string, or non-numeric text). -/
inductive Cell where
  | num (x : ℚ)
  | other
deriving DecidableEq

/-- `to_float` (source lines 19-26): convert a value to a float,
`None` if it fails. -/
def to_float : Cell → Option ℚ
  | Cell.num x => some x
  | Cell.other => none

/-- `is_close` (source lines 126-137) at the default tolerance
`tol = 0.005` used at every call site.  Note the denominator is the
signed `correct_val`, exactly as in the source, and that an unparseable
`correct` falls into the `user_val == 0` case together with
`correct_val == 0`. -/
def is_close (user correct : Cell) : Bool :=
  match to_float user with
  | none => false
  | some u =>
    match to_float correct with
    | none => decide (u = 0)
    | some c => if c = 0 then decide (u = 0) else decide (|u - c| / c < 5 / 1000)

/-- The score computed in the check-answers branch (source lines
455-458): start from 0 and add 0.5 for each of the three `is_close`
checks against the expected answers. -/
def score3 (u1 u2 u3 e1 e2 e3 : ℚ) : ℚ :=
  (if is_close (Cell.num u1) (Cell.num e1) then (1 : ℚ) / 2 else 0) +
    (if is_close (Cell.num u2) (Cell.num e2) then (1 : ℚ) / 2 else 0) +
    (if is_close (Cell.num u3) (Cell.num e3) then (1 : ℚ) / 2 else 0)

/-- `np.deg2rad` : degrees to radians. -/
noncomputable def deg2rad (x : ℝ) : ℝ := x * Real.pi / 180

/-- `np.rad2deg` : radians to degrees. -/
noncomputable def rad2deg (x : ℝ) : ℝ := x * 180 / Real.pi

/-- The argument of the first square root in the generation formula
(source line 58): `F2**2 + F3**2 - 2*F2*F3*np.cos(np.deg2rad(30))`. -/
noncomputable def E1 (f2 f3 : ℝ) : ℝ :=
  f2 ^ 2 + f3 ^ 2 - 2 * f2 * f3 * Real.cos (deg2rad 30)

/-- `Ans1_A` (source line 58): magnitude of `F2 + F3` by the law of
cosines at 30 degrees. -/
noncomputable def ans1A (f2 f3 : ℝ) : ℝ := Real.sqrt (E1 f2 f3)

/-- `IntTheta` (source line 59): intermediate angle by the law of
sines, in degrees. -/
noncomputable def intTheta (f2 f3 : ℝ) : ℝ :=
  rad2deg (Real.arcsin (f2 * Real.sin (deg2rad 30) / ans1A f2 f3))

/-- The argument of the second square root (source line 60). -/
noncomputable def E2 (f1 f2 f3 : ℝ) : ℝ :=
  ans1A f2 f3 ^ 2 + f1 ^ 2 -
    2 * ans1A f2 f3 * f1 * Real.cos (deg2rad (60 - intTheta f2 f3))

/-- `Ans2_A` (source line 60): magnitude of `F' + F1` by the law of
cosines at `60 - IntTheta` degrees. -/
noncomputable def ans2A (f1 f2 f3 : ℝ) : ℝ := Real.sqrt (E2 f1 f2 f3)

/-- `ResultantDeg` (source line 61): second law-of-sines angle, in
degrees. -/
noncomputable def resultantDeg (f1 f2 f3 : ℝ) : ℝ :=
  rad2deg (Real.arcsin
    (ans1A f2 f3 * Real.sin (deg2rad (60 - intTheta f2 f3)) / ans2A f1 f2 f3))

/-- `Ans3_A` (source line 62): `90 + 60 + ResultantDeg`. -/
noncomputable def ans3A (f1 f2 f3 : ℝ) : ℝ := 90 + 60 + resultantDeg f1 f2 f3

/-- Python `round(x, 3)`: rounding to 3 decimal digits (the half-even
versus half-up difference of Python's `round` is below the resolution
of every property proved here, none of which sits on an exact
half-thousandth). -/
noncomputable def round3 (x : ℝ) : ℚ := ((round (x * 1000) : ℤ) : ℚ) / 1000

/-- The `problem-data` dictionary: three forces and the three expected
answers (source lines 65-72 and 303-310). -/
structure Problem where
  F1 : ℚ
  F2 : ℚ
  F3 : ℚ
  Ans1 : ℚ
  Ans2 : ℚ
  Ans3 : ℚ
deriving DecidableEq

/-- Building a problem dictionary from three forces by the fixed
trigonometric formula.  This identical block of formulas appears
verbatim at source lines 58-72 (`generate_problem`), 291-310 (draft
restore) and 405-424 (regeneration); it is shared here as one
definition. -/
noncomputable def mkProblem (f1 f2 f3 : ℚ) : Problem :=
  ⟨f1, f2, f3,
    round3 (ans1A (f2 : ℝ) (f3 : ℝ)),
    round3 (ans2A (f1 : ℝ) (f2 : ℝ) (f3 : ℝ)),
    round3 (ans3A (f1 : ℝ) (f2 : ℝ) (f3 : ℝ))⟩

/-- `generate_problem` (source lines 53-84): `r1, r2, r3` are the values
drawn by `random.randint(0, 20)`, `randint(0, 15)`, `randint(0, 15)`.
The `None`-fallback loop of lines 75-82 is omitted because its guard
`problem[key] is None` can never hold: every field is a Python float or
int by construction (see the C8 theorem for the proof that no field is
an undefined number either). -/
noncomputable def generate_problem (r1 r2 r3 : ℕ) : Problem :=
  mkProblem (350 + r1) (125 + r2) (200 + r3)

/-- Python `int(x)` on a float: truncation toward zero. -/
def pyInt (x : ℚ) : ℤ := if 0 ≤ x then Int.floor x else Int.ceil x

/-- Python `str.strip()`: drop leading and trailing whitespace. -/
def pyStrip (cs : List Char) : List Char :=
  ((cs.dropWhile Char.isWhitespace).reverse.dropWhile Char.isWhitespace).reverse

/-- Python `str.lower()` (ASCII case folding, which covers every id and
status value the program compares). -/
def pyLower (cs : List Char) : List Char := cs.map Char.toLower

/-- `str(x).strip().lower()`, the normalization applied to student ids
and status values throughout the source. -/
def normId (s : String) : String := String.mk (pyLower (pyStrip s.data))

/-- One row of the attempt sheet as produced by `get_all_records()`
(header `Timestamp, Student ID, F1, F2, F3, Ans1, Ans2, Ans3, Score,
Status`; the timestamp is never read back and is omitted). -/
structure AttemptRow where
  sid : String
  F1 : Cell
  F2 : Cell
  F3 : Cell
  Ans1 : Cell
  Ans2 : Cell
  Ans3 : Cell
  Score : Cell
  Status : String
deriving DecidableEq

/-- The records matching a student id (source lines 268-271):
case-insensitive, trimmed comparison on both sides. -/
def matching (sid : String) (records : List AttemptRow) : List AttemptRow :=
  records.filter fun r => normId r.sid == normId sid

/-- The distinct user-visible message templates of the callback
(`last-attempt-info` strings), one constructor per template. -/
inductive Msg where
  | blank
  | noSaved
  | draftLoaded (sid : String)
  | errorDraft
  | errorData
  | fullyCorrect
  | scoreReport (score : Option ℚ)
  | staleStatus
deriving DecidableEq

/-- The distinct per-item feedback templates (`feedback1..3` strings). -/
inductive Feedback where
  | empty
  | correct
  | incorrectN (expected : ℚ)
  | incorrectDeg (expected : ℚ)
  | warnIncomplete
  | wentWrong
deriving DecidableEq

/-- The tuple returned by the student-id (reconciliation) branch of
`handle_all`: three feedback slots, the problem store, the three answer
inputs, the try-again flag, the check-disabled flag and the message. -/
structure ReconResult where
  fb1 : Feedback
  fb2 : Feedback
  fb3 : Feedback
  problem : Problem
  a1 : Option ℚ
  a2 : Option ℚ
  a3 : Option ℚ
  showTry : Bool
  checkDisabled : Bool
  msg : Msg
deriving DecidableEq

/-- The draft branch (source lines 285-335): parse the stored forces
(`int(float(...))`, whose failure is the inner `except` falling back to
a fresh problem), recompute the expected answers from the forces by the
fixed formula, and resume the stored submitted answers via `to_float`,
each independently `None` when unparseable. -/
noncomputable def draftCase (sidN : String) (latest : AttemptRow) (fresh : Problem) :
    ReconResult :=
  match to_float latest.F1, to_float latest.F2, to_float latest.F3 with
  | some x1, some x2, some x3 =>
      ⟨Feedback.empty, Feedback.empty, Feedback.empty,
        mkProblem ((pyInt x1 : ℤ) : ℚ) ((pyInt x2 : ℤ) : ℚ) ((pyInt x3 : ℤ) : ℚ),
        to_float latest.Ans1, to_float latest.Ans2, to_float latest.Ans3,
        false, false, Msg.draftLoaded sidN⟩
  | _, _, _ =>
      ⟨Feedback.empty, Feedback.empty, Feedback.empty, fresh,
        none, none, none, false, false, Msg.errorDraft⟩

/-- Dispatch on the status of the latest matching record (source lines
279-364): `draft` resumes, `final` reports the previous score with a
special variant at the full score 1.5, anything else falls back to a
new problem with the stale-status message. -/
noncomputable def reconcileLatest (sidN : String) (latest : AttemptRow) (fresh : Problem) :
    ReconResult :=
  if normId latest.Status = "draft" then draftCase sidN latest fresh
  else if normId latest.Status = "final" then
    ⟨Feedback.empty, Feedback.empty, Feedback.empty, fresh, none, none, none,
      false, false,
      if to_float latest.Score = some (3 / 2 : ℚ) then Msg.fullyCorrect
      else Msg.scoreReport (to_float latest.Score)⟩
  else
    ⟨Feedback.empty, Feedback.empty, Feedback.empty, fresh, none, none, none,
      false, false, Msg.staleStatus⟩

/-- The student-id branch of `handle_all` once the records have been
fetched (source lines 264-364).  `fresh` is the problem produced by
the (at most one) `generate_problem()` call of the executed path. -/
noncomputable def reconcileOk (sid : String) (records : List AttemptRow) (fresh : Problem) :
    ReconResult :=
  match (matching sid records).getLast? with
  | none =>
      ⟨Feedback.empty, Feedback.empty, Feedback.empty, fresh, none, none, none,
        false, false, Msg.noSaved⟩
  | some latest => reconcileLatest (normId sid) latest fresh

/-- The full student-id branch including the outer `try/except` (source
lines 263-375): a store fault while reading the history is absorbed
into a fresh problem and the recoverable-error message. -/
noncomputable def reconcile (sid : String) (fetch : Except Unit (List AttemptRow))
    (fresh : Problem) : ReconResult :=
  match fetch with
  | Except.error _ =>
      ⟨Feedback.empty, Feedback.empty, Feedback.empty, fresh, none, none, none,
        false, false, Msg.errorData⟩
  | Except.ok records => reconcileOk sid records fresh

/-- One row of the `MaxScores` sheet (header `Student ID, F1, F2, F3,
Ans1, Ans2, Ans3, Max Score, Last Updated`; the timestamp is write-only
and omitted). -/
structure MaxRow where
  sid : String
  F1 : ℚ
  F2 : ℚ
  F3 : ℚ
  A1 : ℚ
  A2 : ℚ
  A3 : ℚ
  maxScore : ℚ
deriving DecidableEq

/-- `update_max_score` (source lines 99-123) on the rows of the
`MaxScores` sheet: look for the first row whose student id matches
case-insensitively; if found, overwrite columns `B..I` only when the
new score strictly exceeds the stored one, and return; otherwise
append a new row for the student. -/
def update_max_score (sid : String) (f1 f2 f3 b1 b2 b3 sc : ℚ) :
    List MaxRow → List MaxRow
  | [] => [⟨sid, f1, f2, f3, b1, b2, b3, sc⟩]
  | r :: rs =>
      if normId r.sid = normId sid then
        (if sc > r.maxScore then ⟨r.sid, f1, f2, f3, b1, b2, b3, sc⟩ else r) :: rs
      else r :: update_max_score sid f1 f2 f3 b1 b2 b3 sc rs

/-- No row of the max-score table matches the student id. -/
def noMatch (sid : String) (rows : List MaxRow) : Bool :=
  rows.all fun r => decide (¬ normId r.sid = normId sid)

/-- One row appended to the attempt sheet by `save_attempt` (source
lines 86-97; timestamp omitted). -/
structure LogRow where
  sid : String
  F1 : ℚ
  F2 : ℚ
  F3 : ℚ
  A1 : Option ℚ
  A2 : Option ℚ
  A3 : Option ℚ
  score : ℚ
  status : String
deriving DecidableEq

/-- The `problem-data` output slot of the check branch:
`dash.no_update` or a stored value. -/
inductive DataOut where
  | noUpdate
  | set (d : Option Problem)
deriving DecidableEq

/-- The tuple returned by the check-answers branch of `handle_all`,
together with its store effects: the rows appended to the attempt log
and the resulting state of the max-score table. -/
structure CheckResult where
  fb1 : Feedback
  fb2 : Feedback
  fb3 : Feedback
  dataOut : DataOut
  a1 : Cell
  a2 : Cell
  a3 : Cell
  showTry : Bool
  checkDisabled : Bool
  msg : Msg
  appended : List LogRow
  maxTable : List MaxRow
deriving DecidableEq

/-- The check-answers branch of `handle_all` (source lines 378-467).
`sid` is the raw `student-id` input (`none` = Python `None`); `data` is
the stored problem (`none` models a `problem-data` value that fails the
required-keys validation with no recoverable forces, source line 427;
a `Problem` value always has every key, so the partial-regeneration
path of lines 403-425 is unreachable for it).  `storeFault = true`
means the spreadsheet client raises inside `save_attempt` /
`update_max_score`; these calls are not wrapped in any `try`, so the
exception escapes the callback, modelled as `Except.error ()`. -/
def handle_check (sid : Option String) (a1 a2 a3 : Cell) (data : Option Problem)
    (maxRows : List MaxRow) (storeFault : Bool) (fresh : Problem) :
    Except Unit CheckResult :=
  match to_float a1, to_float a2, to_float a3 with
  | some u1, some u2, some u3 =>
    match data with
    | none =>
        Except.ok ⟨Feedback.wentWrong, Feedback.empty, Feedback.empty,
          DataOut.set (some fresh), Cell.other, Cell.other, Cell.other,
          false, false, Msg.blank, [], maxRows⟩
    | some p =>
        let fb1 := if is_close (Cell.num u1) (Cell.num p.Ans1) then Feedback.correct
          else Feedback.incorrectN p.Ans1
        let fb2 := if is_close (Cell.num u2) (Cell.num p.Ans2) then Feedback.correct
          else Feedback.incorrectN p.Ans2
        let fb3 := if is_close (Cell.num u3) (Cell.num p.Ans3) then Feedback.correct
          else Feedback.incorrectDeg p.Ans3
        let score := score3 u1 u2 u3 p.Ans1 p.Ans2 p.Ans3
        match sid with
        | some s =>
          if s = "" then
            Except.ok ⟨fb1, fb2, fb3, DataOut.set (some p), a1, a2, a3,
              true, true, Msg.blank, [], maxRows⟩
          else if storeFault then Except.error ()
          else
            Except.ok ⟨fb1, fb2, fb3, DataOut.set (some p), a1, a2, a3,
              true, true, Msg.blank,
              [⟨s, p.F1, p.F2, p.F3, some u1, some u2, some u3, score, "final"⟩],
              update_max_score s p.F1 p.F2 p.F3 u1 u2 u3 score maxRows⟩
        | none =>
            Except.ok ⟨fb1, fb2, fb3, DataOut.set (some p), a1, a2, a3,
              true, true, Msg.blank, [], maxRows⟩
  | _, _, _ =>
      Except.ok ⟨Feedback.warnIncomplete, Feedback.empty, Feedback.empty,
        DataOut.noUpdate, a1, a2, a3, false, false, Msg.blank, [], maxRows⟩

/-- All domain conditions of the generation formula hold: both square
root arguments are non-negative, both divisions have a non-zero
denominator, and both arcsine arguments lie in `[-1, 1]`. -/
def generation_defined (f1 f2 f3 : ℝ) : Prop :=
  0 ≤ E1 f2 f3 ∧ ans1A f2 f3 ≠ 0 ∧
    |f2 * Real.sin (deg2rad 30) / ans1A f2 f3| ≤ 1 ∧
    0 ≤ E2 f1 f2 f3 ∧ ans2A f1 f2 f3 ≠ 0 ∧
    |ans1A f2 f3 * Real.sin (deg2rad (60 - intTheta f2 f3)) / ans2A f1 f2 f3| ≤ 1

/-- IEEE-checked square root: `none` when the float result would be
undefined (argument negative). -/
noncomputable def fsqrt (o : Option ℝ) : Option ℝ :=
  o.bind fun x => if 0 ≤ x then some (Real.sqrt x) else none

/-- IEEE-checked arcsine: `none` when the float result would be
undefined (argument outside `[-1, 1]`). -/
noncomputable def farcsin (o : Option ℝ) : Option ℝ :=
  o.bind fun x => if |x| ≤ 1 then some (Real.arcsin x) else none

/-- IEEE-checked division: `none` when the denominator is zero (the
float result would be non-finite). -/
noncomputable def fdiv (o q : Option ℝ) : Option ℝ :=
  o.bind fun x => q.bind fun y => if y = 0 then none else some (x / y)

/-- The `Ans1_A` computation with every undefined intermediate result
tracked as `none`. -/
noncomputable def ans1D (f2 f3 : ℝ) : Option ℝ := fsqrt (some (E1 f2 f3))

/-- The `IntTheta` computation, undefined-tracking. -/
noncomputable def intThetaD (f2 f3 : ℝ) : Option ℝ :=
  (farcsin (fdiv (some (f2 * Real.sin (deg2rad 30))) (ans1D f2 f3))).map rad2deg

/-- The `Ans2_A` computation, undefined-tracking. -/
noncomputable def ans2D (f1 f2 f3 : ℝ) : Option ℝ :=
  (ans1D f2 f3).bind fun a => (intThetaD f2 f3).bind fun t =>
    fsqrt (some (a ^ 2 + f1 ^ 2 - 2 * a * f1 * Real.cos (deg2rad (60 - t))))

/-- The `ResultantDeg` computation, undefined-tracking. -/
noncomputable def resultantDegD (f1 f2 f3 : ℝ) : Option ℝ :=
  ((ans1D f2 f3).bind fun a => (intThetaD f2 f3).bind fun t =>
    (ans2D f1 f2 f3).bind fun b =>
      farcsin (fdiv (some (a * Real.sin (deg2rad (60 - t)))) (some b))).map rad2deg

/-- The `Ans3_A` computation, undefined-tracking. -/
noncomputable def ans3D (f1 f2 f3 : ℝ) : Option ℝ :=
  (resultantDegD f1 f2 f3).map fun d => 90 + 60 + d

/-- A concrete problem value used by witnesses and counterexamples. -/
def pEx : Problem := ⟨360, 130, 205, 100, 200, 150⟩

/-- A throwaway freshly-generated problem for witness inputs. -/
def pZero : Problem := ⟨0, 0, 0, 0, 0, 0⟩

/-- C1: grading marks an item correct iff `|submitted - expected| /
expected < 0.005` (strict, signed denominator), except that an expected
value of exactly 0 requires the submitted value to equal 0 exactly; the
score is 0.5 times the number of correct items and never exceeds 1.5. -/
theorem grading_formula_c1 (u1 u2 u3 e1 e2 e3 : ℚ) :
    (is_close (Cell.num u1) (Cell.num e1) = true ↔
      (if e1 = 0 then u1 = 0 else |u1 - e1| / e1 < 5 / 1000)) ∧
    (is_close (Cell.num u2) (Cell.num e2) = true ↔
      (if e2 = 0 then u2 = 0 else |u2 - e2| / e2 < 5 / 1000)) ∧
    (is_close (Cell.num u3) (Cell.num e3) = true ↔
      (if e3 = 0 then u3 = 0 else |u3 - e3| / e3 < 5 / 1000)) ∧
    score3 u1 u2 u3 e1 e2 e3 =
      1 / 2 * ((if is_close (Cell.num u1) (Cell.num e1) then (1 : ℚ) else 0) +
        (if is_close (Cell.num u2) (Cell.num e2) then (1 : ℚ) else 0) +
        (if is_close (Cell.num u3) (Cell.num e3) then (1 : ℚ) else 0)) ∧
    score3 u1 u2 u3 e1 e2 e3 ≤ 3 / 2 := by
  have key : ∀ u e : ℚ, (is_close (Cell.num u) (Cell.num e) = true ↔
      (if e = 0 then u = 0 else |u - e| / e < 5 / 1000)) := by
    intro u e
    by_cases he : e = 0 <;> simp [is_close, to_float, he]
  refine ⟨key u1 e1, key u2 e2, key u3 e3, ?_, ?_⟩
  · unfold score3
    split_ifs <;> ring
  · unfold score3
    split_ifs <;> norm_num

/-- C10: whenever the expected value is strictly negative, `is_close`
accepts every parseable submitted value, because the relative-error
quotient is divided by the signed expected value and is therefore
non-positive, hence below the tolerance. -/
theorem negative_expected_always_correct_c10 (u e : ℚ) (h : e < 0) :
    is_close (Cell.num u) (Cell.num e) = true := by
  have he : e ≠ 0 := ne_of_lt h
  simp only [is_close, to_float, he, if_false, decide_eq_true_eq]
  have hnp : |u - e| / e ≤ 0 :=
    div_nonpos_of_nonneg_of_nonpos (abs_nonneg _) (le_of_lt h)
  linarith

/-- Witness for C10 at a concrete input: expected `-2`, submitted one
million, marked correct. -/
theorem negative_expected_always_correct_c10_w :
    ((-2 : ℚ) < 0) ∧ is_close (Cell.num 1000000) (Cell.num (-2)) = true :=
  ⟨by norm_num, negative_expected_always_correct_c10 1000000 (-2) (by norm_num)⟩

/-- `np.deg2rad(30)` is `π / 6`. -/
theorem deg2rad_thirty : deg2rad 30 = Real.pi / 6 := by
  unfold deg2rad; ring

/-- The cosine appearing in the first law-of-cosines step. -/
theorem cos_deg30 : Real.cos (deg2rad 30) = Real.sqrt 3 / 2 := by
  rw [deg2rad_thirty, Real.cos_pi_div_six]

/-- The sine appearing in the first law-of-sines step. -/
theorem sin_deg30 : Real.sin (deg2rad 30) = 1 / 2 := by
  rw [deg2rad_thirty, Real.sin_pi_div_six]

/-- Lower bound on the first square-root argument over the configured
force ranges. -/
theorem E1_lower (f2 f3 : ℝ) (h2a : 125 ≤ f2) (h2b : f2 ≤ 140)
    (h3a : 200 ≤ f3) (h3b : f3 ≤ 215) : 10000 ≤ E1 f2 f3 := by
  have hs : Real.sqrt 3 ^ 2 = 3 := Real.sq_sqrt (by norm_num)
  unfold E1
  rw [cos_deg30]
  nlinarith [sq_nonneg (2 * f2 - Real.sqrt 3 * f3), hs, sq_nonneg (f3 - 200)]

/-- Upper bound on the first square-root argument over the configured
force ranges. -/
theorem E1_upper (f2 f3 : ℝ) (h2a : 125 ≤ f2) (h2b : f2 ≤ 140)
    (h3a : 200 ≤ f3) (h3b : f3 ≤ 215) : E1 f2 f3 ≤ 65825 := by
  have hf2 : (0 : ℝ) ≤ f2 := by linarith
  have hf3 : (0 : ℝ) ≤ f3 := by linarith
  unfold E1
  rw [cos_deg30]
  nlinarith [mul_nonneg (mul_nonneg hf2 hf3) (Real.sqrt_nonneg 3)]

/-- `Ans1_A` is at least 100 over the configured ranges. -/
theorem ans1A_lower (f2 f3 : ℝ) (h2a : 125 ≤ f2) (h2b : f2 ≤ 140)
    (h3a : 200 ≤ f3) (h3b : f3 ≤ 215) : 100 ≤ ans1A f2 f3 := by
  have h1 := E1_lower f2 f3 h2a h2b h3a h3b
  have h2 : Real.sqrt 10000 ≤ Real.sqrt (E1 f2 f3) := Real.sqrt_le_sqrt h1
  have h3 : Real.sqrt 10000 = 100 := by
    rw [show (10000 : ℝ) = 100 ^ 2 by norm_num, Real.sqrt_sq (by norm_num)]
  unfold ans1A
  linarith

/-- `Ans1_A` is at most 257 over the configured ranges. -/
theorem ans1A_upper (f2 f3 : ℝ) (h2a : 125 ≤ f2) (h2b : f2 ≤ 140)
    (h3a : 200 ≤ f3) (h3b : f3 ≤ 215) : ans1A f2 f3 ≤ 257 := by
  have h1 := E1_upper f2 f3 h2a h2b h3a h3b
  have h2 : Real.sqrt (E1 f2 f3) ≤ Real.sqrt 66049 := Real.sqrt_le_sqrt (by linarith)
  have h3 : Real.sqrt 66049 = 257 := by
    rw [show (66049 : ℝ) = 257 ^ 2 by norm_num, Real.sqrt_sq (by norm_num)]
  unfold ans1A
  linarith

/-- The first arcsine argument lies in `[-1, 1]` over the configured
ranges. -/
theorem arcsinArg1_le (f2 f3 : ℝ) (h2a : 125 ≤ f2) (h2b : f2 ≤ 140)
    (h3a : 200 ≤ f3) (h3b : f3 ≤ 215) :
    |f2 * Real.sin (deg2rad 30) / ans1A f2 f3| ≤ 1 := by
  have hA := ans1A_lower f2 f3 h2a h2b h3a h3b
  have hApos : 0 < ans1A f2 f3 := by linarith
  rw [sin_deg30, abs_div, abs_of_pos hApos,
    abs_of_nonneg (by linarith : (0 : ℝ) ≤ f2 * (1 / 2)), div_le_one hApos]
  linarith

/-- Law-of-cosines decomposition: the second square-root argument is a
sum of two squares. -/
theorem lawcos_decomp (A f1 t : ℝ) :
    A ^ 2 + f1 ^ 2 - 2 * A * f1 * Real.cos t =
      (f1 - A * Real.cos t) ^ 2 + (A * Real.sin t) ^ 2 := by
  have pyth := Real.sin_sq_add_cos_sq t
  linear_combination (-(A ^ 2)) * pyth

/-- The second square-root argument as a sum of two squares. -/
theorem E2_eq (f1 f2 f3 : ℝ) :
    E2 f1 f2 f3 =
      (f1 - ans1A f2 f3 * Real.cos (deg2rad (60 - intTheta f2 f3))) ^ 2 +
        (ans1A f2 f3 * Real.sin (deg2rad (60 - intTheta f2 f3))) ^ 2 := by
  unfold E2
  exact lawcos_decomp _ _ _

/-- Lower bound on the second square-root argument over the configured
ranges. -/
theorem E2_lower (f1 f2 f3 : ℝ) (h1a : 350 ≤ f1) (h1b : f1 ≤ 370)
    (h2a : 125 ≤ f2) (h2b : f2 ≤ 140) (h3a : 200 ≤ f3) (h3b : f3 ≤ 215) :
    8649 ≤ E2 f1 f2 f3 := by
  have hAl := ans1A_lower f2 f3 h2a h2b h3a h3b
  have hAu := ans1A_upper f2 f3 h2a h2b h3a h3b
  have hc1 : Real.cos (deg2rad (60 - intTheta f2 f3)) ≤ 1 := Real.cos_le_one _
  have hAc : ans1A f2 f3 * Real.cos (deg2rad (60 - intTheta f2 f3)) ≤ ans1A f2 f3 := by
    nlinarith
  have h93 : 93 ≤ f1 - ans1A f2 f3 * Real.cos (deg2rad (60 - intTheta f2 f3)) := by
    linarith
  rw [E2_eq]
  nlinarith [sq_nonneg (ans1A f2 f3 * Real.sin (deg2rad (60 - intTheta f2 f3)))]

/-- `Ans2_A` is at least 93 over the configured ranges. -/
theorem ans2A_lower (f1 f2 f3 : ℝ) (h1a : 350 ≤ f1) (h1b : f1 ≤ 370)
    (h2a : 125 ≤ f2) (h2b : f2 ≤ 140) (h3a : 200 ≤ f3) (h3b : f3 ≤ 215) :
    93 ≤ ans2A f1 f2 f3 := by
  have h1 := E2_lower f1 f2 f3 h1a h1b h2a h2b h3a h3b
  have h2 : Real.sqrt 8649 ≤ Real.sqrt (E2 f1 f2 f3) := Real.sqrt_le_sqrt h1
  have h3 : Real.sqrt 8649 = 93 := by
    rw [show (8649 : ℝ) = 93 ^ 2 by norm_num, Real.sqrt_sq (by norm_num)]
  unfold ans2A
  linarith

/-- The numerator of the second arcsine argument is bounded by the
denominator. -/
theorem sinterm_le_ans2A (f1 f2 f3 : ℝ) (h1a : 350 ≤ f1) (h1b : f1 ≤ 370)
    (h2a : 125 ≤ f2) (h2b : f2 ≤ 140) (h3a : 200 ≤ f3) (h3b : f3 ≤ 215) :
    |ans1A f2 f3 * Real.sin (deg2rad (60 - intTheta f2 f3))| ≤ ans2A f1 f2 f3 := by
  have h1 : (ans1A f2 f3 * Real.sin (deg2rad (60 - intTheta f2 f3))) ^ 2 ≤ E2 f1 f2 f3 := by
    rw [E2_eq]
    nlinarith [sq_nonneg (f1 - ans1A f2 f3 * Real.cos (deg2rad (60 - intTheta f2 f3)))]
  calc |ans1A f2 f3 * Real.sin (deg2rad (60 - intTheta f2 f3))|
      = Real.sqrt ((ans1A f2 f3 * Real.sin (deg2rad (60 - intTheta f2 f3))) ^ 2) :=
        (Real.sqrt_sq_eq_abs _).symm
    _ ≤ Real.sqrt (E2 f1 f2 f3) := Real.sqrt_le_sqrt h1
    _ = ans2A f1 f2 f3 := rfl

/-- The second arcsine argument lies in `[-1, 1]` over the configured
ranges. -/
theorem arcsinArg2_le (f1 f2 f3 : ℝ) (h1a : 350 ≤ f1) (h1b : f1 ≤ 370)
    (h2a : 125 ≤ f2) (h2b : f2 ≤ 140) (h3a : 200 ≤ f3) (h3b : f3 ≤ 215) :
    |ans1A f2 f3 * Real.sin (deg2rad (60 - intTheta f2 f3)) / ans2A f1 f2 f3| ≤ 1 := by
  have hA2 := ans2A_lower f1 f2 f3 h1a h1b h2a h2b h3a h3b
  have hpos : 0 < ans2A f1 f2 f3 := by linarith
  rw [abs_div, abs_of_pos hpos, div_le_one hpos]
  exact sinterm_le_ans2A f1 f2 f3 h1a h1b h2a h2b h3a h3b

/-- Every domain condition of the generation formula holds over the
configured force ranges. -/
theorem gen_defined_aux (f1 f2 f3 : ℝ) (h1a : 350 ≤ f1) (h1b : f1 ≤ 370)
    (h2a : 125 ≤ f2) (h2b : f2 ≤ 140) (h3a : 200 ≤ f3) (h3b : f3 ≤ 215) :
    generation_defined f1 f2 f3 := by
  have hE1 := E1_lower f2 f3 h2a h2b h3a h3b
  have hA1 := ans1A_lower f2 f3 h2a h2b h3a h3b
  have hE2 := E2_lower f1 f2 f3 h1a h1b h2a h2b h3a h3b
  have hA2 := ans2A_lower f1 f2 f3 h1a h1b h2a h2b h3a h3b
  exact ⟨by linarith, (by linarith : (0 : ℝ) < ans1A f2 f3).ne',
    arcsinArg1_le f2 f3 h2a h2b h3a h3b, by linarith,
    (by linarith : (0 : ℝ) < ans2A f1 f2 f3).ne',
    arcsinArg2_le f1 f2 f3 h1a h1b h2a h2b h3a h3b⟩

/-- C3: for every F1 in [350, 370], F2 in [125, 140] and F3 in
[200, 215] (the configured random ranges), the generation formula is
everywhere defined: both square-root arguments are non-negative, both
arcsine arguments lie in `[-1, 1]`, no division by zero occurs, so
Ans1, Ans2 and Ans3 are finite numbers and the fallback replacement is
never needed. -/
theorem generation_domain_safe_c3 (f1 f2 f3 : ℝ)
    (h1a : 350 ≤ f1) (h1b : f1 ≤ 370) (h2a : 125 ≤ f2) (h2b : f2 ≤ 140)
    (h3a : 200 ≤ f3) (h3b : f3 ≤ 215) : generation_defined f1 f2 f3 :=
  gen_defined_aux f1 f2 f3 h1a h1b h2a h2b h3a h3b

/-- Witness for C3 at the concrete forces 360, 130, 205. -/
theorem generation_domain_safe_c3_w :
    ((350 : ℝ) ≤ 360 ∧ (360 : ℝ) ≤ 370 ∧ (125 : ℝ) ≤ 130 ∧ (130 : ℝ) ≤ 140 ∧
      (200 : ℝ) ≤ 205 ∧ (205 : ℝ) ≤ 215) ∧ generation_defined 360 130 205 :=
  ⟨by norm_num, generation_domain_safe_c3 360 130 205 (by norm_num) (by norm_num)
    (by norm_num) (by norm_num) (by norm_num) (by norm_num)⟩

/-- When its argument is in the domain, the checked `Ans1_A`
computation is defined and agrees with the ideal value. -/
theorem ans1D_eq (f2 f3 : ℝ) (h : 0 ≤ E1 f2 f3) :
    ans1D f2 f3 = some (ans1A f2 f3) := by
  simp [ans1D, fsqrt, h, ans1A]

/-- When every step is in its domain, the checked `IntTheta`
computation is defined and agrees with the ideal value. -/
theorem intThetaD_eq (f2 f3 : ℝ) (h0 : 0 ≤ E1 f2 f3) (hne : ans1A f2 f3 ≠ 0)
    (harg : |f2 * Real.sin (deg2rad 30) / ans1A f2 f3| ≤ 1) :
    intThetaD f2 f3 = some (intTheta f2 f3) := by
  rw [intThetaD, ans1D_eq f2 f3 h0]
  simp [fdiv, farcsin, hne, harg, intTheta]

/-- When every step is in its domain, the checked `Ans2_A` computation
is defined and agrees with the ideal value. -/
theorem ans2D_eq (f1 f2 f3 : ℝ) (h0 : 0 ≤ E1 f2 f3) (hne : ans1A f2 f3 ≠ 0)
    (harg : |f2 * Real.sin (deg2rad 30) / ans1A f2 f3| ≤ 1)
    (h2 : 0 ≤ E2 f1 f2 f3) :
    ans2D f1 f2 f3 = some (ans2A f1 f2 f3) := by
  rw [ans2D, ans1D_eq f2 f3 h0, intThetaD_eq f2 f3 h0 hne harg]
  show fsqrt (some (E2 f1 f2 f3)) = some (ans2A f1 f2 f3)
  simp [fsqrt, h2, ans2A]

/-- When every step is in its domain, the checked `ResultantDeg`
computation is defined and agrees with the ideal value. -/
theorem resultantDegD_eq (f1 f2 f3 : ℝ) (h0 : 0 ≤ E1 f2 f3)
    (hne : ans1A f2 f3 ≠ 0)
    (harg : |f2 * Real.sin (deg2rad 30) / ans1A f2 f3| ≤ 1)
    (h2 : 0 ≤ E2 f1 f2 f3) (hne2 : ans2A f1 f2 f3 ≠ 0)
    (harg2 : |ans1A f2 f3 * Real.sin (deg2rad (60 - intTheta f2 f3)) / ans2A f1 f2 f3| ≤ 1) :
    resultantDegD f1 f2 f3 = some (resultantDeg f1 f2 f3) := by
  rw [resultantDegD, ans1D_eq f2 f3 h0, intThetaD_eq f2 f3 h0 hne harg,
    ans2D_eq f1 f2 f3 h0 hne harg h2]
  simp [fdiv, farcsin, hne2, harg2, resultantDeg]

/-- When every step is in its domain, the checked `Ans3_A` computation
is defined and agrees with the ideal value. -/
theorem ans3D_eq (f1 f2 f3 : ℝ) (h0 : 0 ≤ E1 f2 f3) (hne : ans1A f2 f3 ≠ 0)
    (harg : |f2 * Real.sin (deg2rad 30) / ans1A f2 f3| ≤ 1)
    (h2 : 0 ≤ E2 f1 f2 f3) (hne2 : ans2A f1 f2 f3 ≠ 0)
    (harg2 : |ans1A f2 f3 * Real.sin (deg2rad (60 - intTheta f2 f3)) / ans2A f1 f2 f3| ≤ 1) :
    ans3D f1 f2 f3 = some (ans3A f1 f2 f3) := by
  rw [ans3D, resultantDegD_eq f1 f2 f3 h0 hne harg h2 hne2 harg2]
  simp [ans3A]

/-- Real-valued force bounds for a draw of the generator. -/
theorem draw_bounds (r1 r2 r3 : ℕ) (h1 : r1 ≤ 20) (h2 : r2 ≤ 15) (h3 : r3 ≤ 15) :
    (350 : ℝ) ≤ ((350 + r1 : ℚ) : ℝ) ∧ ((350 + r1 : ℚ) : ℝ) ≤ 370 ∧
      (125 : ℝ) ≤ ((125 + r2 : ℚ) : ℝ) ∧ ((125 + r2 : ℚ) : ℝ) ≤ 140 ∧
      (200 : ℝ) ≤ ((200 + r3 : ℚ) : ℝ) ∧ ((200 + r3 : ℚ) : ℝ) ≤ 215 := by
  have c1 : (r1 : ℝ) ≤ 20 := by exact_mod_cast h1
  have c2 : (r2 : ℝ) ≤ 15 := by exact_mod_cast h2
  have c3 : (r3 : ℝ) ≤ 15 := by exact_mod_cast h3
  have n1 : (0 : ℝ) ≤ (r1 : ℝ) := Nat.cast_nonneg r1
  have n2 : (0 : ℝ) ≤ (r2 : ℝ) := Nat.cast_nonneg r2
  have n3 : (0 : ℝ) ≤ (r3 : ℝ) := Nat.cast_nonneg r3
  push_cast
  refine ⟨by linarith, by linarith, by linarith, by linarith, by linarith, by linarith⟩

/-- C8: for every execution of the problem generator (every draw of the
three random offsets), each computed field is a defined number — the
checked (undefined-tracking) computation returns `some` of the ideal
value at every step — and the returned Problem's answer fields are
exactly the rounded formula values, so the Problem never contains a
missing or undefined numeric field and the fixed fallback values are
never substituted. -/
theorem generator_never_undefined_c8 (r1 r2 r3 : ℕ)
    (h1 : r1 ≤ 20) (h2 : r2 ≤ 15) (h3 : r3 ≤ 15) :
    ans1D ((125 + r2 : ℚ) : ℝ) ((200 + r3 : ℚ) : ℝ) =
      some (ans1A ((125 + r2 : ℚ) : ℝ) ((200 + r3 : ℚ) : ℝ)) ∧
    ans2D ((350 + r1 : ℚ) : ℝ) ((125 + r2 : ℚ) : ℝ) ((200 + r3 : ℚ) : ℝ) =
      some (ans2A ((350 + r1 : ℚ) : ℝ) ((125 + r2 : ℚ) : ℝ) ((200 + r3 : ℚ) : ℝ)) ∧
    ans3D ((350 + r1 : ℚ) : ℝ) ((125 + r2 : ℚ) : ℝ) ((200 + r3 : ℚ) : ℝ) =
      some (ans3A ((350 + r1 : ℚ) : ℝ) ((125 + r2 : ℚ) : ℝ) ((200 + r3 : ℚ) : ℝ)) ∧
    (generate_problem r1 r2 r3).Ans1 =
      round3 (ans1A ((125 + r2 : ℚ) : ℝ) ((200 + r3 : ℚ) : ℝ)) ∧
    (generate_problem r1 r2 r3).Ans2 =
      round3 (ans2A ((350 + r1 : ℚ) : ℝ) ((125 + r2 : ℚ) : ℝ) ((200 + r3 : ℚ) : ℝ)) ∧
    (generate_problem r1 r2 r3).Ans3 =
      round3 (ans3A ((350 + r1 : ℚ) : ℝ) ((125 + r2 : ℚ) : ℝ) ((200 + r3 : ℚ) : ℝ)) := by
  obtain ⟨h1a, h1b, h2a, h2b, h3a, h3b⟩ := draw_bounds r1 r2 r3 h1 h2 h3
  obtain ⟨d1, d2, d3, d4, d5, d6⟩ :=
    gen_defined_aux ((350 + r1 : ℚ) : ℝ) ((125 + r2 : ℚ) : ℝ) ((200 + r3 : ℚ) : ℝ)
      h1a h1b h2a h2b h3a h3b
  exact ⟨ans1D_eq _ _ d1, ans2D_eq _ _ _ d1 d2 d3 d4,
    ans3D_eq _ _ _ d1 d2 d3 d4 d5 d6, rfl, rfl, rfl⟩

/-- Witness for C8 at the concrete draw (10, 5, 5). -/
theorem generator_never_undefined_c8_w :
    (10 ≤ 20 ∧ 5 ≤ 15) ∧
      ans1D ((125 + (5 : ℕ) : ℚ) : ℝ) ((200 + (5 : ℕ) : ℚ) : ℝ) =
        some (ans1A ((125 + (5 : ℕ) : ℚ) : ℝ) ((200 + (5 : ℕ) : ℚ) : ℝ)) ∧
      (generate_problem 10 5 5).Ans1 =
        round3 (ans1A ((125 + (5 : ℕ) : ℚ) : ℝ) ((200 + (5 : ℕ) : ℚ) : ℝ)) := by
  have h := generator_never_undefined_c8 10 5 5 (by norm_num) (by norm_num) (by norm_num)
  exact ⟨⟨by norm_num, by norm_num⟩, h.1, h.2.2.2.1⟩

/-- C2: when the most recent matching record has status `draft`, the
reconciler recomputes the Problem's expected answers from the stored
forces via the fixed formula (the stored Ans cells never flow into the
problem), resumes the stored Ans cells as the submitted answers (each
independently `none` when unparseable) and reports the draft-loaded
message. -/
theorem draft_reconciliation_c2 (sid : String) (records : List AttemptRow)
    (fresh : Problem) (latest : AttemptRow) (x1 x2 x3 : ℚ)
    (hlast : (matching sid records).getLast? = some latest)
    (hstatus : normId latest.Status = "draft")
    (h1 : to_float latest.F1 = some x1)
    (h2 : to_float latest.F2 = some x2)
    (h3 : to_float latest.F3 = some x3) :
    reconcileOk sid records fresh =
      ⟨Feedback.empty, Feedback.empty, Feedback.empty,
        mkProblem ((pyInt x1 : ℤ) : ℚ) ((pyInt x2 : ℤ) : ℚ) ((pyInt x3 : ℤ) : ℚ),
        to_float latest.Ans1, to_float latest.Ans2, to_float latest.Ans3,
        false, false, Msg.draftLoaded (normId sid)⟩ := by
  unfold reconcileOk
  rw [hlast]
  show reconcileLatest (normId sid) latest fresh = _
  unfold reconcileLatest draftCase
  rw [hstatus, h1, h2, h3]
  simp

/-- Witness for C2: the spec's reconciliation scenario, student
`alice`, one draft row with forces 360, 130, 205 and a stored answer
25 that must be ignored. -/
theorem draft_reconciliation_c2_w :
    ((matching "Alice "
        [⟨"alice", Cell.num 360, Cell.num 130, Cell.num 205, Cell.num 25,
          Cell.other, Cell.other, Cell.num 0, "draft"⟩]).getLast? =
      some ⟨"alice", Cell.num 360, Cell.num 130, Cell.num 205, Cell.num 25,
          Cell.other, Cell.other, Cell.num 0, "draft"⟩) ∧
    reconcileOk "Alice "
        [⟨"alice", Cell.num 360, Cell.num 130, Cell.num 205, Cell.num 25,
          Cell.other, Cell.other, Cell.num 0, "draft"⟩] pZero =
      ⟨Feedback.empty, Feedback.empty, Feedback.empty,
        mkProblem ((pyInt 360 : ℤ) : ℚ) ((pyInt 130 : ℤ) : ℚ) ((pyInt 205 : ℤ) : ℚ),
        some 25, none, none, false, false, Msg.draftLoaded (normId "Alice ")⟩ :=
  ⟨rfl, draft_reconciliation_c2 "Alice "
    [⟨"alice", Cell.num 360, Cell.num 130, Cell.num 205, Cell.num 25,
      Cell.other, Cell.other, Cell.num 0, "draft"⟩] pZero
    ⟨"alice", Cell.num 360, Cell.num 130, Cell.num 205, Cell.num 25,
      Cell.other, Cell.other, Cell.num 0, "draft"⟩ 360 130 205
    rfl (by decide) rfl rfl rfl⟩

/-- C7: when the most recent matching record has status `final`, the
reconciler returns the fresh randomized Problem with no resumed
answers, and the message is the fully-correct variant exactly when the
stored score parses to 1.5, otherwise the numeric score report. -/
theorem final_reconciliation_c7 (sid : String) (records : List AttemptRow)
    (fresh : Problem) (latest : AttemptRow)
    (hlast : (matching sid records).getLast? = some latest)
    (hstatus : normId latest.Status = "final") :
    reconcileOk sid records fresh =
      ⟨Feedback.empty, Feedback.empty, Feedback.empty, fresh, none, none, none,
        false, false,
        if to_float latest.Score = some (3 / 2 : ℚ) then Msg.fullyCorrect
        else Msg.scoreReport (to_float latest.Score)⟩ ∧
    ((reconcileOk sid records fresh).msg = Msg.fullyCorrect ↔
      to_float latest.Score = some (3 / 2 : ℚ)) := by
  have hmain : reconcileOk sid records fresh =
      ⟨Feedback.empty, Feedback.empty, Feedback.empty, fresh, none, none, none,
        false, false,
        if to_float latest.Score = some (3 / 2 : ℚ) then Msg.fullyCorrect
        else Msg.scoreReport (to_float latest.Score)⟩ := by
    unfold reconcileOk
    rw [hlast]
    show reconcileLatest (normId sid) latest fresh = _
    unfold reconcileLatest
    rw [hstatus]
    simp
  refine ⟨hmain, ?_⟩
  rw [hmain]
  by_cases hsc : to_float latest.Score = some (3 / 2 : ℚ) <;> simp [hsc]

/-- Witness for C7: the spec's scenario, student `bob` with a final
record of score 1.5, yielding the fully-correct message variant. -/
theorem final_reconciliation_c7_w :
    ((matching "bob"
        [⟨"bob", Cell.num 360, Cell.num 130, Cell.num 205, Cell.num 100,
          Cell.num 200, Cell.num 150, Cell.num (3 / 2), "final"⟩]).getLast? =
      some ⟨"bob", Cell.num 360, Cell.num 130, Cell.num 205, Cell.num 100,
          Cell.num 200, Cell.num 150, Cell.num (3 / 2), "final"⟩) ∧
    (reconcileOk "bob"
        [⟨"bob", Cell.num 360, Cell.num 130, Cell.num 205, Cell.num 100,
          Cell.num 200, Cell.num 150, Cell.num (3 / 2), "final"⟩] pZero).msg =
      Msg.fullyCorrect := by
  have h := final_reconciliation_c7 "bob"
    [⟨"bob", Cell.num 360, Cell.num 130, Cell.num 205, Cell.num 100,
      Cell.num 200, Cell.num 150, Cell.num (3 / 2), "final"⟩] pZero
    ⟨"bob", Cell.num 360, Cell.num 130, Cell.num 205, Cell.num 100,
      Cell.num 200, Cell.num 150, Cell.num (3 / 2), "final"⟩ rfl (by decide)
  exact ⟨rfl, h.2.mpr rfl⟩

/-- C9: two student identifiers equal after trimming and lowercasing
select the same matching records and produce the same reconciliation
result; an identifier with no matching records yields the fresh
problem, no resumed answers and the no-saved-attempt message. -/
theorem id_normalization_c9 (sid1 sid2 : String) (records : List AttemptRow)
    (fresh : Problem) :
    (normId sid1 = normId sid2 →
      matching sid1 records = matching sid2 records ∧
        reconcileOk sid1 records fresh = reconcileOk sid2 records fresh) ∧
    (matching sid1 records = [] →
      reconcileOk sid1 records fresh =
        ⟨Feedback.empty, Feedback.empty, Feedback.empty, fresh, none, none, none,
          false, false, Msg.noSaved⟩) := by
  constructor
  · intro h
    have hm : matching sid1 records = matching sid2 records := by
      unfold matching
      rw [h]
    refine ⟨hm, ?_⟩
    unfold reconcileOk
    rw [hm, h]
  · intro h
    unfold reconcileOk
    rw [h]
    rfl

/-- Witness for C9: `"Alice "` and `" ALICE"` normalize identically and
reconcile identically over an empty history, which also produces the
no-saved-attempt message. -/
theorem id_normalization_c9_w :
    (normId "Alice " = normId " ALICE") ∧
    (matching "Alice " ([] : List AttemptRow) = []) ∧
    reconcileOk "Alice " [] pZero = reconcileOk " ALICE" [] pZero ∧
    reconcileOk "Alice " [] pZero =
      ⟨Feedback.empty, Feedback.empty, Feedback.empty, pZero, none, none, none,
        false, false, Msg.noSaved⟩ :=
  ⟨by decide, rfl,
    ((id_normalization_c9 "Alice " " ALICE" [] pZero).1 (by decide)).2,
    (id_normalization_c9 "Alice " " ALICE" [] pZero).2 rfl⟩

/-- If no row of the max-score table matches, `update_max_score`
appends a fresh row for the student at the end. -/
theorem umax_no_match (sid : String) (f1 f2 f3 b1 b2 b3 sc : ℚ)
    (rows : List MaxRow) (h : noMatch sid rows = true) :
    update_max_score sid f1 f2 f3 b1 b2 b3 sc rows =
      rows ++ [⟨sid, f1, f2, f3, b1, b2, b3, sc⟩] := by
  induction rows with
  | nil => rfl
  | cons r rs ih =>
    have h2 : ¬ normId r.sid = normId sid ∧ noMatch sid rs = true := by
      simpa [noMatch] using h
    unfold update_max_score
    rw [if_neg h2.1, ih h2.2]
    rfl

/-- `update_max_score` rewrites the first matching row in place exactly
when the new score strictly exceeds the stored maximum, and leaves
everything else untouched. -/
theorem umax_found (sid : String) (f1 f2 f3 b1 b2 b3 sc : ℚ)
    (pre post : List MaxRow) (r : MaxRow)
    (hpre : noMatch sid pre = true) (hr : normId r.sid = normId sid) :
    update_max_score sid f1 f2 f3 b1 b2 b3 sc (pre ++ r :: post) =
      pre ++ (if sc > r.maxScore then ⟨r.sid, f1, f2, f3, b1, b2, b3, sc⟩ else r)
        :: post := by
  induction pre with
  | nil =>
    simp only [List.nil_append]
    unfold update_max_score
    rw [if_pos hr]
  | cons q qs ih =>
    have h2 : ¬ normId q.sid = normId sid ∧ noMatch sid qs = true := by
      simpa [noMatch] using hpre
    simp only [List.cons_append]
    unfold update_max_score
    rw [if_neg h2.1, ih h2.2]

/-- C4 (amended): on a complete grading pass with a non-empty student
id and a fault-free store, a `final`-status record with the submitted
values and the score is appended, and the max-score table is updated by
`update_max_score`, which overwrites the first matching row only when
the new score strictly exceeds the stored maximum and appends a new row
for a student with no matching row. -/
theorem final_logging_c4 (s : String) (a1 a2 a3 : Cell) (u1 u2 u3 : ℚ)
    (p : Problem) (maxRows pre post : List MaxRow) (r : MaxRow) (fresh : Problem)
    (hs : ¬ s = "")
    (h1 : to_float a1 = some u1) (h2 : to_float a2 = some u2)
    (h3 : to_float a3 = some u3) :
    handle_check (some s) a1 a2 a3 (some p) maxRows false fresh =
      Except.ok ⟨(if is_close (Cell.num u1) (Cell.num p.Ans1) then Feedback.correct
          else Feedback.incorrectN p.Ans1),
        (if is_close (Cell.num u2) (Cell.num p.Ans2) then Feedback.correct
          else Feedback.incorrectN p.Ans2),
        (if is_close (Cell.num u3) (Cell.num p.Ans3) then Feedback.correct
          else Feedback.incorrectDeg p.Ans3),
        DataOut.set (some p), a1, a2, a3, true, true, Msg.blank,
        [⟨s, p.F1, p.F2, p.F3, some u1, some u2, some u3,
          score3 u1 u2 u3 p.Ans1 p.Ans2 p.Ans3, "final"⟩],
        update_max_score s p.F1 p.F2 p.F3 u1 u2 u3
          (score3 u1 u2 u3 p.Ans1 p.Ans2 p.Ans3) maxRows⟩ ∧
    (noMatch s maxRows = true →
      update_max_score s p.F1 p.F2 p.F3 u1 u2 u3
          (score3 u1 u2 u3 p.Ans1 p.Ans2 p.Ans3) maxRows =
        maxRows ++ [⟨s, p.F1, p.F2, p.F3, u1, u2, u3,
          score3 u1 u2 u3 p.Ans1 p.Ans2 p.Ans3⟩]) ∧
    (noMatch s pre = true → normId r.sid = normId s →
      update_max_score s p.F1 p.F2 p.F3 u1 u2 u3
          (score3 u1 u2 u3 p.Ans1 p.Ans2 p.Ans3) (pre ++ r :: post) =
        pre ++ (if score3 u1 u2 u3 p.Ans1 p.Ans2 p.Ans3 > r.maxScore then
          ⟨r.sid, p.F1, p.F2, p.F3, u1, u2, u3,
            score3 u1 u2 u3 p.Ans1 p.Ans2 p.Ans3⟩ else r) :: post) := by
  refine ⟨?_, fun h => umax_no_match s p.F1 p.F2 p.F3 u1 u2 u3 _ maxRows h,
    fun hp hr => umax_found s p.F1 p.F2 p.F3 u1 u2 u3 _ pre post r hp hr⟩
  unfold handle_check
  rw [h1, h2, h3]
  simp [hs, score3]

/-- A concrete pre-existing max-score row used by the C4 witness. -/
def mRow : MaxRow := ⟨"bob", 360, 130, 205, 1, 1, 1, 1⟩

/-- Witness for C4: student `Bob` submits the exact expected answers of
`pEx`; a `final` row is appended and the existing max row for `bob`
(old max 1) is overwritten exactly because the new score exceeds it. -/
theorem final_logging_c4_w :
    (¬ ("Bob" : String) = "") ∧
    Except.map CheckResult.appended
        (handle_check (some "Bob") (Cell.num 100) (Cell.num 200) (Cell.num 150)
          (some pEx) [mRow] false pZero) =
      Except.ok [⟨"Bob", pEx.F1, pEx.F2, pEx.F3, some 100, some 200, some 150,
        score3 100 200 150 pEx.Ans1 pEx.Ans2 pEx.Ans3, "final"⟩] ∧
    update_max_score "Bob" pEx.F1 pEx.F2 pEx.F3 100 200 150
        (score3 100 200 150 pEx.Ans1 pEx.Ans2 pEx.Ans3) ([] ++ mRow :: []) =
      [] ++ (if score3 100 200 150 pEx.Ans1 pEx.Ans2 pEx.Ans3 > mRow.maxScore then
        (⟨mRow.sid, pEx.F1, pEx.F2, pEx.F3, 100, 200, 150,
          score3 100 200 150 pEx.Ans1 pEx.Ans2 pEx.Ans3⟩ : MaxRow) else mRow)
        :: [] := by
  have h := final_logging_c4 "Bob" (Cell.num 100) (Cell.num 200) (Cell.num 150)
    100 200 150 pEx [mRow] [] [] mRow pZero (by decide) rfl rfl rfl
  refine ⟨by decide, ?_, h.2.2 rfl (by decide)⟩
  rw [h.1]
  rfl

/-- C4 counterexample: a complete grading pass (all three values parse,
problem data valid, grading succeeds — item 1 is marked correct) with
no student id entered appends nothing to the attempt log, contradicting
the claim that every complete grading pass appends a final record. -/
theorem no_sid_no_append_c4_cex :
    Except.map CheckResult.appended
        (handle_check none (Cell.num 100) (Cell.num 200) (Cell.num 150)
          (some pEx) [] false pZero) = Except.ok [] ∧
    Except.map CheckResult.fb1
        (handle_check none (Cell.num 100) (Cell.num 200) (Cell.num 150)
          (some pEx) [] false pZero) = Except.ok Feedback.correct := by
  have hc : is_close (Cell.num (100 : ℚ)) (Cell.num (100 : ℚ)) = true := by
    simp only [is_close, to_float]
    norm_num
  constructor
  · rfl
  · unfold handle_check
    simp [pEx, hc, to_float, Except.map]

/-- C6 (amended): when any submitted value is absent or unparseable,
the check branch shows the completion warning in the first feedback
slot, empty feedback in the other two, leaves the problem state
untouched (`dash.no_update`), appends no attempt record and performs no
max-score update — regardless of student id, problem data and store
health. -/
theorem incomplete_submission_c6 (sid : Option String) (a1 a2 a3 : Cell)
    (data : Option Problem) (maxRows : List MaxRow) (storeFault : Bool)
    (fresh : Problem)
    (h : to_float a1 = none ∨ to_float a2 = none ∨ to_float a3 = none) :
    handle_check sid a1 a2 a3 data maxRows storeFault fresh =
      Except.ok ⟨Feedback.warnIncomplete, Feedback.empty, Feedback.empty,
        DataOut.noUpdate, a1, a2, a3, false, false, Msg.blank, [], maxRows⟩ := by
  unfold handle_check
  cases ha : to_float a1 <;> cases hb : to_float a2 <;> cases hc : to_float a3
  all_goals try rfl
  rcases h with h | h | h <;> simp_all

/-- Witness for C6: the spec's incomplete-submission scenario
`(120, None, 45)`. -/
theorem incomplete_submission_c6_w :
    (to_float (Cell.num 120) = none ∨ to_float Cell.other = none ∨
      to_float (Cell.num 45) = none) ∧
    handle_check (some "bob") (Cell.num 120) Cell.other (Cell.num 45)
        (some pEx) [] false pZero =
      Except.ok ⟨Feedback.warnIncomplete, Feedback.empty, Feedback.empty,
        DataOut.noUpdate, Cell.num 120, Cell.other, Cell.num 45,
        false, false, Msg.blank, [], []⟩ :=
  ⟨Or.inr (Or.inl rfl),
    incomplete_submission_c6 (some "bob") (Cell.num 120) Cell.other (Cell.num 45)
      (some pEx) [] false pZero (Or.inr (Or.inl rfl))⟩

/-- C6 counterexample: on the incomplete submission `(120, None, 45)`
the second feedback slot is empty, not an incomplete verdict, so the
claim that all three items receive an incomplete verdict fails. -/
theorem incomplete_fb2_empty_c6_cex :
    Except.map CheckResult.fb2
        (handle_check (some "bob") (Cell.num 120) Cell.other (Cell.num 45)
          (some pEx) [] false pZero) = Except.ok Feedback.empty ∧
    Feedback.empty ≠ Feedback.warnIncomplete :=
  ⟨rfl, fun h => nomatch h⟩

/-- C5 (amended): every fault raised while reading the attempt history
and every parse failure of the stored forces of a draft row is absorbed
by the reconciler into a freshly generated Problem, no resumed answers
and a recoverable-error message.  (Store faults during the grading
branch's `save_attempt` / `update_max_score`, by contrast, propagate —
see the counterexample.) -/
theorem fault_absorption_c5 (sid : String) (records : List AttemptRow)
    (fresh : Problem) (latest : AttemptRow) :
    (reconcile sid (Except.error ()) fresh =
      ⟨Feedback.empty, Feedback.empty, Feedback.empty, fresh, none, none, none,
        false, false, Msg.errorData⟩) ∧
    ((matching sid records).getLast? = some latest →
      normId latest.Status = "draft" →
      (to_float latest.F1 = none ∨ to_float latest.F2 = none ∨
        to_float latest.F3 = none) →
      reconcileOk sid records fresh =
        ⟨Feedback.empty, Feedback.empty, Feedback.empty, fresh, none, none, none,
          false, false, Msg.errorDraft⟩) := by
  refine ⟨rfl, ?_⟩
  intro hlast hstatus hbad
  unfold reconcileOk
  rw [hlast]
  show reconcileLatest (normId sid) latest fresh = _
  unfold reconcileLatest
  rw [hstatus]
  rw [if_pos rfl]
  unfold draftCase
  cases ha : to_float latest.F1 <;> cases hb : to_float latest.F2 <;>
    cases hc : to_float latest.F3
  all_goals try rfl
  rcases hbad with h | h | h <;> simp_all

/-- A draft row whose stored F1 does not parse, used by the C5
witness. -/
def badRow : AttemptRow :=
  ⟨"alice", Cell.other, Cell.num 130, Cell.num 205, Cell.other, Cell.other,
    Cell.other, Cell.num 0, "draft"⟩

/-- Witness for C5: a store fault while fetching and a malformed draft
row both reconcile to the fresh problem with a recoverable message. -/
theorem fault_absorption_c5_w :
    ((matching "alice" [badRow]).getLast? = some badRow) ∧
    reconcile "alice" (Except.error ()) pZero =
      ⟨Feedback.empty, Feedback.empty, Feedback.empty, pZero, none, none, none,
        false, false, Msg.errorData⟩ ∧
    reconcileOk "alice" [badRow] pZero =
      ⟨Feedback.empty, Feedback.empty, Feedback.empty, pZero, none, none, none,
        false, false, Msg.errorDraft⟩ :=
  ⟨rfl, (fault_absorption_c5 "alice" [badRow] pZero badRow).1,
    (fault_absorption_c5 "alice" [badRow] pZero badRow).2 rfl (by decide)
      (Or.inl rfl)⟩

/-- C5 counterexample: a store fault inside the grading branch's
`save_attempt` / `update_max_score` calls (which no `try` protects)
escapes the callback (`Except.error ()`), so not every store fault
during an interaction is absorbed. -/
theorem store_fault_uncaught_c5_cex :
    handle_check (some "bob") (Cell.num 100) (Cell.num 200) (Cell.num 150)
      (some pEx) [] true pZero = Except.error () := rfl
